import Mathlib

/-!
Shallow embedding of the cooking-recipes agent (files `agent.py`,
`recipes.py`, `formatters.py`) and proofs about it.

Modelling conventions:
- Python JSON values are the inductive `Json`; Python dicts are
  association lists with unique keys (as produced by `json.loads`).
- Python exceptions are the inductive `PyErr`; fallible code returns
  `Except PyErr α`.
- The language-model client is an oracle `Nat → Except PyErr Json`
  giving, for each attempt index, the outcome of one
  `parse_user_message` call (a `completion` followed by `json.loads`):
  either the parsed JSON value, `jsonDecodeError` for malformed output,
  or some other error for transport failures.
- The HTTP layer is an oracle `RequestParams → HttpResponse`; the list
  of issued requests is returned alongside the result so that the
  outbound request contents and the number of requests are observable.
- Log-sink calls (`add_agent_log`) have no user-visible effect and are
  not modelled; reply-sink calls (`add_reply`) are collected in order
  into a `List String`.
-/

/-- A JSON value, as returned by Python `json.loads`. -/
inductive Json where
  | null : Json
  | bool : Bool → Json
  | num : Int → Json
  | str : String → Json
  | arr : List Json → Json
  | obj : List (String × Json) → Json

/-- Python exceptions that the embedded code can raise. -/
inductive PyErr where
  | jsonDecodeError : PyErr
  | keyError : String → PyErr
  | indexError : PyErr
  | typeError : PyErr
  | attributeError : PyErr
  | exception : String → PyErr
deriving DecidableEq

/-- First value bound to a key in an association list (dict lookup). -/
def lookupKvs : List (String × Json) → String → Option Json
  | [], _ => none
  | (k, v) :: rest, key => if k == key then some v else lookupKvs rest key

/-- Python `d.get(k)` on a dict `d`: the bound value, or `None`. -/
def getKv (kvs : List (String × Json)) (k : String) : Json :=
  (lookupKvs kvs k).getD Json.null

/-- Python `d.get(k, default)` on a dict `d`. -/
def getKvD (kvs : List (String × Json)) (k : String) (d : Json) : Json :=
  (lookupKvs kvs k).getD d

/-- Python `x.get(k)` where `x` may not be a dict: `AttributeError` then. -/
def Json.dictGet (j : Json) (k : String) : Except PyErr Json :=
  match j with
  | .obj kvs => .ok (getKv kvs k)
  | _ => .error .attributeError

/-- Python `x[k]` subscripting: `KeyError` when the key is absent,
`TypeError` when `x` is not a dict. -/
def Json.getItem (j : Json) (k : String) : Except PyErr Json :=
  match j with
  | .obj kvs =>
    match lookupKvs kvs k with
    | some v => .ok v
    | none => .error (.keyError k)
  | _ => .error .typeError

/-- Require a JSON array, as Python list concatenation and iteration do;
other types give `TypeError` (approximating the exact Python error). -/
def Json.asList (j : Json) : Except PyErr (List Json) :=
  match j with
  | .arr xs => .ok xs
  | _ => .error .typeError

mutual

/-- Python `repr()` of a JSON value (strings get single quotes). -/
def Json.pyRepr : Json → String
  | .null => "None"
  | .bool true => "True"
  | .bool false => "False"
  | .num n => toString n
  | .str s => "\x27" ++ s ++ "\x27"
  | .arr xs => "[" ++ pyReprList xs ++ "]"
  | .obj kvs => "\x7b" ++ pyReprObj kvs ++ "\x7d"

/-- Comma-separated `repr()`s of the elements of a list. -/
def pyReprList : List Json → String
  | [] => ""
  | [x] => x.pyRepr
  | x :: y :: rest => x.pyRepr ++ ", " ++ pyReprList (y :: rest)

/-- Comma-separated `key: value` `repr()`s of the entries of a dict. -/
def pyReprObj : List (String × Json) → String
  | [] => ""
  | [(k, v)] => "\x27" ++ k ++ "\x27: " ++ v.pyRepr
  | (k, v) :: p :: rest =>
    "\x27" ++ k ++ "\x27: " ++ v.pyRepr ++ ", " ++ pyReprObj (p :: rest)

end

/-- Python `str()` of a JSON value (used inside f-strings): the string
itself for strings, `repr()` otherwise. -/
def Json.pyStr (j : Json) : String :=
  match j with
  | .str s => s
  | _ => j.pyRepr

/-- Python list comprehension over `xs` applying the fallible `f`
left-to-right; the first exception aborts the whole comprehension. -/
def mapE {α β : Type} (f : α → Except PyErr β) : List α → Except PyErr (List β)
  | [] => .ok []
  | x :: xs => do
    let y ← f x
    let ys ← mapE f xs
    pure (y :: ys)

/-! ### Domain model (`recipes.py`) -/

/-- Class `RecipeIngredient`: built from `ingredient.get("original")` and
`ingredient.get("image")`, so both fields are arbitrary JSON values. -/
structure RecipeIngredient where
  title : Json
  image : Json

/-- Class `RecipeInstruction`: built from `instruction.get("step")`. -/
structure RecipeInstruction where
  step : Json

/-- Class `Recipe`: untyped fields exactly as constructed in
`SpoonacularRecipeProvider.fetch_recipes`. -/
structure Recipe where
  title : Json
  likes : Json
  image : Json
  ingredients : List RecipeIngredient
  instructions : List RecipeInstruction

/-- One `RecipeIngredient(ingredient.get("original"), ingredient.get("image"))`. -/
def parseIngredient (j : Json) : Except PyErr RecipeIngredient := do
  let t ← j.dictGet "original"
  let im ← j.dictGet "image"
  pure ⟨t, im⟩

/-- One `RecipeInstruction(instruction.get("step"))`. -/
def parseInstruction (j : Json) : Except PyErr RecipeInstruction := do
  let s ← j.dictGet "step"
  pure ⟨s⟩

/-- One `Recipe(...)` constructor call of `fetch_recipes`, evaluated in
Python argument order: `title`, `likes`, `image` via `.get`; then the
ingredient comprehension over `recipe["missedIngredients"] +
recipe["usedIngredients"]`; then the instruction comprehension over
`recipe["analyzedInstructions"][0]["steps"]`. -/
def buildRecipe (recipe : Json) : Except PyErr Recipe := do
  let title ← recipe.dictGet "title"
  let likes ← recipe.dictGet "likes"
  let image ← recipe.dictGet "image"
  let missedJ ← recipe.getItem "missedIngredients"
  let usedJ ← recipe.getItem "usedIngredients"
  let missed ← missedJ.asList
  let used ← usedJ.asList
  let ingredients ← mapE parseIngredient (missed ++ used)
  let aiJ ← recipe.getItem "analyzedInstructions"
  let ai ← aiJ.asList
  let firstGroup ← match ai with
    | [] => Except.error PyErr.indexError
    | g :: _ => Except.ok g
  let stepsJ ← firstGroup.getItem "steps"
  let steps ← stepsJ.asList
  let instructions ← mapE parseInstruction steps
  pure ⟨title, likes, image, ingredients, instructions⟩

/-! ### `SpoonacularRecipeProvider` (`recipes.py`) -/

/-- The query parameters of the outbound GET request. -/
structure RequestParams where
  query : String
  cuisine : String
  excludeCuisine : String
  includeIngredients : String
  excludeIngredients : String
  number : Nat
  apiKey : String
  instructionsRequired : String
  addRecipeInformation : String
  addRecipeNutrition : String
  fillIngredients : String
  ignorePantry : String
  sort : String
  sortDirection : String

/-- An HTTP response: status code and already-decoded JSON body. -/
structure HttpResponse where
  status_code : Nat
  body : Json

/-- The `params` dict built at the top of `fetch_recipes`; Python
`",".join(xs)` is `String.intercalate "," xs`. -/
def fetch_recipes_params (query : String)
    (include_cuisines exclude_cuisines include_ingredients exclude_ingredients :
      List String)
    (max_amount : Nat) (apiKey : String) : RequestParams where
  query := query
  cuisine := String.intercalate "," include_cuisines
  excludeCuisine := String.intercalate "," exclude_cuisines
  includeIngredients := String.intercalate "," include_ingredients
  excludeIngredients := String.intercalate "," exclude_ingredients
  number := max_amount
  apiKey := apiKey
  instructionsRequired := "true"
  addRecipeInformation := "true"
  addRecipeNutrition := "false"
  fillIngredients := "true"
  ignorePantry := "true"
  sort := "calories"
  sortDirection := "desc"

/-- Response handling of `fetch_recipes`: on 200, `json_response.get("results", [])`
and one `Recipe` per result; otherwise an `Exception` whose message is the
f-string with the status code and the provider message (default
`"Unknown error"`). A non-dict body makes `.get` raise `AttributeError`;
a non-list `results` value fails when iterated. -/
def handle_response (response : HttpResponse) : Except PyErr (List Recipe) :=
  let json_response := response.body
  if response.status_code = 200 then
    match json_response with
    | .obj kvs =>
      match getKvD kvs "results" (Json.arr []) with
      | .arr recipes => mapE buildRecipe recipes
      | _ => .error .typeError
    | _ => .error .attributeError
  else
    match json_response with
    | .obj kvs =>
      .error (.exception ("Error fetching recipes: " ++ toString response.status_code
        ++ " " ++ (getKvD kvs "message" (Json.str "Unknown error")).pyStr))
    | _ => .error .attributeError

/-- Method `SpoonacularRecipeProvider.fetch_recipes`: builds the params,
issues exactly one GET request (the returned trace of issued requests),
and normalizes the response. -/
def fetch_recipes (query : String)
    (include_cuisines exclude_cuisines include_ingredients exclude_ingredients :
      List String)
    (max_amount : Nat) (apiKey : String)
    (http : RequestParams → HttpResponse) :
    List RequestParams × Except PyErr (List Recipe) :=
  let params := fetch_recipes_params query include_cuisines exclude_cuisines
    include_ingredients exclude_ingredients max_amount apiKey
  let response := http params
  ([params], handle_response response)

/-! ### `Agent` (`agent.py`) -/

/-- Outcome of one `parse_user_message` call per attempt index: the JSON
value returned by `json.loads(completion)`, `jsonDecodeError` when the
completion is malformed, or another error (e.g. transport failure). -/
def CompletionOracle : Type := Nat → Except PyErr Json

/-- Body of the `for attempt in range(3)` loop of
`parse_user_message_with_retries`, over the remaining attempt indices.
Returns the Python outcome (`ok (some v)` for `return`, `ok none` for
falling off the loop end, `error e` for `raise`) paired with the number
of `parse_user_message` invocations performed. The comparison
`attempt < attempts - 1` is over Python ints. -/
def parseRetryAux (o : CompletionOracle) (attempts : Nat) :
    List Nat → Except PyErr (Option Json) × Nat
  | [] => (.ok none, 0)
  | attempt :: rest =>
    match o attempt with
    | .ok v => (.ok (some v), 1)
    | .error .jsonDecodeError =>
      if (attempt : Int) < (attempts : Int) - 1 then
        let r := parseRetryAux o attempts rest
        (r.1, r.2 + 1)
      else
        (.error .jsonDecodeError, 1)
    | .error e => (.error e, 1)

/-- Method `Agent.parse_user_message_with_retries`: `range(3)` is the
literal index list `[0, 1, 2]`. -/
def parse_user_message_with_retries (o : CompletionOracle) (attempts : Nat) :
    Except PyErr (Option Json) × Nat :=
  parseRetryAux o attempts [0, 1, 2]

/-- Abstraction of `RecipeProvider.fetch_recipes` as called from the
orchestrator: arguments are the (untyped) values of `query`,
`include_ingredients`, `exclude_ingredients`, `include_cuisines`,
`exclude_cuisines` and `max_amount`. -/
def ProviderFn : Type :=
  Json → Json → Json → Json → Json → Nat → Except PyErr (List Recipe)

namespace Agent

/-- Method `Agent.__run`: parse with 3 attempts, branch on a string
`"message"` value, otherwise fetch and render. Returns the replies
emitted in order and the exception escaping `__run`, if any.
A parse result that is `None` or not a dict raises `AttributeError`
at `parsed_params.get("message")`. -/
def runInner (o : CompletionOracle) (provider : ProviderFn)
    (formatter : Recipe → String) : List String × Option PyErr :=
  match (parse_user_message_with_retries o 3).1 with
  | .error e => ([], some e)
  | .ok none => ([], some .attributeError)
  | .ok (some parsed) =>
    match parsed with
    | .obj kvs =>
      match getKv kvs "message" with
      | .str s => ([s], none)
      | _ =>
        let pre := ["Preparing recipes to match your taste"]
        match provider (getKvD kvs "query" (Json.str ""))
            (getKvD kvs "include_ingredients" (Json.arr []))
            (getKvD kvs "exclude_ingredients" (Json.arr []))
            (getKvD kvs "include_cuisines" (Json.arr []))
            (getKvD kvs "exclude_cuisines" (Json.arr [])) 5 with
        | .error e => (pre, some e)
        | .ok recipes =>
          if recipes.length = 0 then
            (pre ++ ["Unfortunately, couldn\x27t find any recipes matching your request. Please consider being more specific next time!"],
              none)
          else
            (pre ++ (("Found " ++ toString recipes.length ++ " recipes for you")
              :: recipes.map formatter), none)
    | _ => ([], some .attributeError)

/-- Method `Agent.run`: the top-level handler around `__run`, turning a
`JSONDecodeError` into the "Please try again" reply and any other
exception into the generic apology reply. -/
def run (o : CompletionOracle) (provider : ProviderFn)
    (formatter : Recipe → String) : List String :=
  match runInner o provider formatter with
  | (replies, none) => replies
  | (replies, some .jsonDecodeError) => replies ++ ["Please try again"]
  | (replies, some _) =>
    replies ++ ["Something went wrong, please be patient until developer fixes it"]

end Agent

/-! ### Helper lemmas -/

@[simp] theorem except_bind_ok {ε α β : Type} (a : α) (f : α → Except ε β) :
    ((Except.ok a : Except ε α) >>= f) = f a := rfl

@[simp] theorem except_bind_error {ε α β : Type} (e : ε) (f : α → Except ε β) :
    ((Except.error e : Except ε α) >>= f) = Except.error e := rfl

@[simp] theorem except_pure {ε α : Type} (a : α) :
    (pure a : Except ε α) = Except.ok a := rfl

/-! ### Claims about the retry loop -/

/-- Claim C2: with `attempts = 3`, malformed completions on attempts 1
and 2 followed by a valid one on attempt 3 give a successful parse after
exactly 3 language-model invocations, and malformed completions on all 3
attempts propagate the JSON decode error after exactly 3 invocations,
with no 4th invocation. -/
theorem parse_retry_bound (o₁ o₂ : CompletionOracle) (v : Json)
    (h10 : o₁ 0 = Except.error PyErr.jsonDecodeError)
    (h11 : o₁ 1 = Except.error PyErr.jsonDecodeError)
    (h12 : o₁ 2 = Except.ok v)
    (h20 : o₂ 0 = Except.error PyErr.jsonDecodeError)
    (h21 : o₂ 1 = Except.error PyErr.jsonDecodeError)
    (h22 : o₂ 2 = Except.error PyErr.jsonDecodeError) :
    parse_user_message_with_retries o₁ 3 = (Except.ok (some v), 3)
    ∧ parse_user_message_with_retries o₂ 3 = (Except.error PyErr.jsonDecodeError, 3) := by
  constructor <;>
    simp [parse_user_message_with_retries, parseRetryAux,
      h10, h11, h12, h20, h21, h22]

/-- Witness for C2 at concrete oracles. -/
theorem parse_retry_bound_witness :
    parse_user_message_with_retries
        (fun n => if n < 2 then Except.error PyErr.jsonDecodeError else Except.ok (Json.num 7)) 3
      = (Except.ok (some (Json.num 7)), 3)
    ∧ parse_user_message_with_retries (fun _ => Except.error PyErr.jsonDecodeError) 3
      = (Except.error PyErr.jsonDecodeError, 3) :=
  parse_retry_bound _ _ (Json.num 7) rfl rfl rfl rfl rfl rfl

/-- Claim C8: an error other than a JSON decode error on the first
attempt propagates immediately, after a single language-model
invocation and with no retry, whatever the `attempts` argument. -/
theorem parse_retry_other_error_immediate (o : CompletionOracle) (attempts : Nat)
    (e : PyErr) (h0 : o 0 = Except.error e) (hne : e ≠ PyErr.jsonDecodeError) :
    parse_user_message_with_retries o attempts = (Except.error e, 1) := by
  simp only [parse_user_message_with_retries, parseRetryAux, h0]

/-- Witness for C8 at a concrete transport-failure oracle. -/
theorem parse_retry_other_error_immediate_witness :
    parse_user_message_with_retries
        (fun _ => Except.error (PyErr.exception "transport failure")) 3
      = (Except.error (PyErr.exception "transport failure"), 1) :=
  parse_retry_other_error_immediate _ 3 _ rfl (by simp)

/-- Claim C9: with `attempts > 3` and malformed completions throughout,
the loop still performs exactly 3 attempts (its bound is the literal
`range(3)`, independent of the `attempts` argument) and then falls off
the loop end, returning `None` rather than raising. -/
theorem parse_retry_capped_at_three (o : CompletionOracle) (attempts : Nat)
    (hgt : 3 < attempts)
    (h0 : o 0 = Except.error PyErr.jsonDecodeError)
    (h1 : o 1 = Except.error PyErr.jsonDecodeError)
    (h2 : o 2 = Except.error PyErr.jsonDecodeError) :
    parse_user_message_with_retries o attempts = (Except.ok none, 3) := by
  have c0 : (0 : Int) < (attempts : Int) - 1 := by omega
  have c1 : (1 : Int) < (attempts : Int) - 1 := by omega
  have c2 : (2 : Int) < (attempts : Int) - 1 := by omega
  simp [parse_user_message_with_retries, parseRetryAux, h0, h1, h2, c0, c1, c2]

/-- Witness for C9 at `attempts = 4`. -/
theorem parse_retry_capped_at_three_witness :
    parse_user_message_with_retries (fun _ => Except.error PyErr.jsonDecodeError) 4
      = (Except.ok none, 3) :=
  parse_retry_capped_at_three _ 4 (by norm_num) rfl rfl rfl

/-! ### Claims about the recipe provider -/

/-- Claim C6: every call serializes each list-valued filter into the
single outbound request as the comma-joined string of its elements; in
particular `include_ingredients = ["egg", "milk"]` yields the parameter
value `"egg,milk"` and an empty list yields the empty string. -/
theorem fetch_recipes_serializes_list_filters (q : String)
    (ic ec ii ei : List String) (n : Nat) (key : String)
    (http : RequestParams → HttpResponse) :
    ((fetch_recipes q ic ec ii ei n key http).1.map RequestParams.cuisine
      = [String.intercalate "," ic])
    ∧ ((fetch_recipes q ic ec ii ei n key http).1.map RequestParams.excludeCuisine
      = [String.intercalate "," ec])
    ∧ ((fetch_recipes q ic ec ii ei n key http).1.map RequestParams.includeIngredients
      = [String.intercalate "," ii])
    ∧ ((fetch_recipes q ic ec ii ei n key http).1.map RequestParams.excludeIngredients
      = [String.intercalate "," ei])
    ∧ ((fetch_recipes q ic ec ["egg", "milk"] ei n key http).1.map
        RequestParams.includeIngredients = ["egg,milk"])
    ∧ ((fetch_recipes q ic ec [] ei n key http).1.map
        RequestParams.includeIngredients = [""]) :=
  ⟨rfl, rfl, rfl, rfl,
    by show [String.intercalate "," ["egg", "milk"]] = ["egg,milk"]; decide, rfl⟩

/-- Claim C7: a non-200 response makes `fetch_recipes` raise an
exception whose message carries the status code and the provider
message, defaulting to `"Unknown error"` when the field is absent; no
recipes are returned and exactly one HTTP request is issued, so the
request is not retried. -/
theorem fetch_recipes_non_200_raises (status : Nat) (hst : status ≠ 200)
    (m q key : String) (ic ec ii ei : List String) (n : Nat) :
    ((fetch_recipes q ic ec ii ei n key
        (fun _ => ⟨status, Json.obj [("message", Json.str m)]⟩)).2
      = Except.error (PyErr.exception
          ("Error fetching recipes: " ++ toString status ++ " " ++ m)))
    ∧ ((fetch_recipes q ic ec ii ei n key (fun _ => ⟨status, Json.obj []⟩)).2
      = Except.error (PyErr.exception
          ("Error fetching recipes: " ++ toString status ++ " " ++ "Unknown error")))
    ∧ ((fetch_recipes q ic ec ii ei n key
        (fun _ => ⟨status, Json.obj [("message", Json.str m)]⟩)).1.length = 1) := by
  refine ⟨?_, ?_, rfl⟩ <;>
    simp [fetch_recipes, handle_response, hst, getKvD, lookupKvs, Json.pyStr]

/-- Witness for C7 at status 404 with and without a provider message. -/
theorem fetch_recipes_non_200_raises_witness :
    ((fetch_recipes "" [] [] [] [] 5 "k"
        (fun _ => ⟨404, Json.obj [("message", Json.str "boom")]⟩)).2
      = Except.error (PyErr.exception
          ("Error fetching recipes: " ++ toString 404 ++ " " ++ "boom")))
    ∧ ((fetch_recipes "" [] [] [] [] 5 "k" (fun _ => ⟨404, Json.obj []⟩)).2
      = Except.error (PyErr.exception
          ("Error fetching recipes: " ++ toString 404 ++ " " ++ "Unknown error")))
    ∧ ((fetch_recipes "" [] [] [] [] 5 "k"
        (fun _ => ⟨404, Json.obj [("message", Json.str "boom")]⟩)).1.length = 1) :=
  fetch_recipes_non_200_raises 404 (by norm_num) "boom" "" "k" [] [] [] [] 5

/-- Claim C10: on a 200 response, each result must contain the keys
`missedIngredients` and `usedIngredients` and a non-empty
`analyzedInstructions` list; a result missing any of them makes
`fetch_recipes` raise a `KeyError` or `IndexError` despite the success
status. -/
theorem fetch_recipes_shape_requirements :
    ((fetch_recipes "" [] [] [] [] 5 "k" (fun _ => ⟨200, Json.obj [("results",
        Json.arr [Json.obj [("usedIngredients", Json.arr []),
          ("analyzedInstructions", Json.arr [Json.obj [("steps", Json.arr [])]])]])]⟩)).2
      = Except.error (PyErr.keyError "missedIngredients"))
    ∧ ((fetch_recipes "" [] [] [] [] 5 "k" (fun _ => ⟨200, Json.obj [("results",
        Json.arr [Json.obj [("missedIngredients", Json.arr []),
          ("analyzedInstructions", Json.arr [Json.obj [("steps", Json.arr [])]])]])]⟩)).2
      = Except.error (PyErr.keyError "usedIngredients"))
    ∧ ((fetch_recipes "" [] [] [] [] 5 "k" (fun _ => ⟨200, Json.obj [("results",
        Json.arr [Json.obj [("missedIngredients", Json.arr []),
          ("usedIngredients", Json.arr [])]])]⟩)).2
      = Except.error (PyErr.keyError "analyzedInstructions"))
    ∧ ((fetch_recipes "" [] [] [] [] 5 "k" (fun _ => ⟨200, Json.obj [("results",
        Json.arr [Json.obj [("missedIngredients", Json.arr []),
          ("usedIngredients", Json.arr []),
          ("analyzedInstructions", Json.arr [])]])]⟩)).2
      = Except.error PyErr.indexError) :=
  ⟨rfl, rfl, rfl, rfl⟩

/-- A well-shaped search-API result: `missed` and `used` are the entry
lists of the ingredient dicts, `firstSteps` the entry lists of the step
dicts of the first analyzed-instruction group, and `restGroups` the
remaining instruction groups (arbitrary JSON). -/
structure ShapedResult where
  title : Json
  likes : Json
  image : Json
  missed : List (List (String × Json))
  used : List (List (String × Json))
  firstSteps : List (List (String × Json))
  restGroups : List Json

/-- The JSON object the search API would return for a `ShapedResult`. -/
def ShapedResult.toJson (r : ShapedResult) : Json :=
  Json.obj [("title", r.title), ("likes", r.likes), ("image", r.image),
    ("missedIngredients", Json.arr (r.missed.map Json.obj)),
    ("usedIngredients", Json.arr (r.used.map Json.obj)),
    ("analyzedInstructions",
      Json.arr (Json.obj [("steps", Json.arr (r.firstSteps.map Json.obj))]
        :: r.restGroups))]

/-- The `Recipe` the claim expects for a `ShapedResult`: missed
ingredients first, then used ones, order preserved within each, and
only the steps of the first instruction group. -/
def ShapedResult.normalized (r : ShapedResult) : Recipe :=
  ⟨r.title, r.likes, r.image,
    (r.missed ++ r.used).map fun kvs => ⟨getKv kvs "original", getKv kvs "image"⟩,
    r.firstSteps.map fun kvs => ⟨getKv kvs "step"⟩⟩

theorem mapE_parseIngredient_objs (l : List (List (String × Json))) :
    mapE parseIngredient (l.map Json.obj)
      = Except.ok (l.map fun kvs => ⟨getKv kvs "original", getKv kvs "image"⟩) := by
  induction l with
  | nil => rfl
  | cons x xs ih => simp [mapE, parseIngredient, Json.dictGet, ih]

theorem mapE_parseInstruction_objs (l : List (List (String × Json))) :
    mapE parseInstruction (l.map Json.obj)
      = Except.ok (l.map fun kvs => ⟨getKv kvs "step"⟩) := by
  induction l with
  | nil => rfl
  | cons x xs ih => simp [mapE, parseInstruction, Json.dictGet, ih]

theorem buildRecipe_toJson (r : ShapedResult) :
    buildRecipe r.toJson = Except.ok r.normalized := by
  simp [buildRecipe, ShapedResult.toJson, ShapedResult.normalized, Json.dictGet,
    Json.getItem, Json.asList, getKv, lookupKvs, ← List.map_append,
    mapE_parseIngredient_objs, mapE_parseInstruction_objs]

theorem mapE_buildRecipe_toJson (l : List ShapedResult) :
    mapE buildRecipe (l.map ShapedResult.toJson)
      = Except.ok (l.map ShapedResult.normalized) := by
  induction l with
  | nil => rfl
  | cons x xs ih => simp [mapE, buildRecipe_toJson, ih]

/-- Claim C3: on a 200 response, `fetch_recipes` returns one `Recipe`
per element of the `results` array (an absent `results` key yields the
empty list); each ingredient list is the `missed` sub-list followed by
the `used` sub-list, order preserved within each, and each instruction
list holds only the steps of the first analyzed-instruction group, all
other groups being ignored. -/
theorem fetch_recipes_success_normalization (q key : String)
    (ic ec ii ei : List String) (n : Nat) (shaped : List ShapedResult) :
    ((fetch_recipes q ic ec ii ei n key (fun _ => ⟨200, Json.obj [("results",
        Json.arr (shaped.map ShapedResult.toJson))]⟩)).2
      = Except.ok (shaped.map ShapedResult.normalized))
    ∧ ((fetch_recipes q ic ec ii ei n key (fun _ => ⟨200, Json.obj []⟩)).2
      = Except.ok []) := by
  constructor
  · simp [fetch_recipes, handle_response, getKvD, lookupKvs, mapE_buildRecipe_toJson]
  · rfl

/-! ### Claims about the orchestrator -/

/-- Claim C4: when the parsed output carries a string under the
`"message"` key, the orchestrator emits exactly one reply, whose text
is that message, and the result is the same whatever the recipe source,
which is therefore never invoked. -/
theorem capability_message_single_reply (o : CompletionOracle)
    (kvs : List (String × Json)) (s : String)
    (hparse : (parse_user_message_with_retries o 3).1
      = Except.ok (some (Json.obj kvs)))
    (hmsg : getKv kvs "message" = Json.str s) :
    ∀ (provider : ProviderFn) (formatter : Recipe → String),
      Agent.runInner o provider formatter = ([s], none) := by
  intro provider formatter
  simp [Agent.runInner, hparse, hmsg]

/-- Witness for C4 at a concrete capability answer. -/
theorem capability_message_single_reply_witness :
    Agent.runInner (fun _ => Except.ok (Json.obj [("message", Json.str "hi")]))
      (fun _ _ _ _ _ _ => Except.error PyErr.typeError) (fun _ => "") = (["hi"], none) :=
  capability_message_single_reply
    (fun _ => Except.ok (Json.obj [("message", Json.str "hi")]))
    [("message", Json.str "hi")] "hi" rfl rfl _ _

/-- Claim C5: when the parse yields a filter object (no string message)
and the source returns `N > 0` recipes, the orchestrator emits the
status reply, then exactly one found-N reply, then exactly one
formatted reply per recipe in source order. -/
theorem render_each_recipe (o : CompletionOracle) (kvs : List (String × Json))
    (provider : ProviderFn) (formatter : Recipe → String) (recipes : List Recipe)
    (hparse : (parse_user_message_with_retries o 3).1
      = Except.ok (some (Json.obj kvs)))
    (hmsg : ∀ s, getKv kvs "message" ≠ Json.str s)
    (hprov : provider (getKvD kvs "query" (Json.str ""))
        (getKvD kvs "include_ingredients" (Json.arr []))
        (getKvD kvs "exclude_ingredients" (Json.arr []))
        (getKvD kvs "include_cuisines" (Json.arr []))
        (getKvD kvs "exclude_cuisines" (Json.arr [])) 5 = Except.ok recipes)
    (hne : recipes ≠ []) :
    Agent.runInner o provider formatter
      = (["Preparing recipes to match your taste",
          "Found " ++ toString recipes.length ++ " recipes for you"]
          ++ recipes.map formatter, none) := by
  have hlen : ¬recipes.length = 0 := by
    simpa [List.length_eq_zero] using hne
  unfold Agent.runInner
  rw [hparse]
  rcases hgm : getKv kvs "message" with _ | b | i | s | xs | okvs
  · simp [hgm, hprov, hlen]
  · simp [hgm, hprov, hlen]
  · simp [hgm, hprov, hlen]
  · exact absurd hgm (hmsg s)
  · simp [hgm, hprov, hlen]
  · simp [hgm, hprov, hlen]

/-- Witness for C5 at a one-recipe source. -/
theorem render_each_recipe_witness :
    Agent.runInner (fun _ => Except.ok (Json.obj []))
        (fun _ _ _ _ _ _ => Except.ok [⟨Json.null, Json.null, Json.null, [], []⟩])
        (fun _ => "TXT")
      = (["Preparing recipes to match your taste",
          "Found " ++ toString (1 : Nat) ++ " recipes for you"] ++ ["TXT"], none) :=
  render_each_recipe _ [] _ _ [⟨Json.null, Json.null, Json.null, [], []⟩] rfl
    (fun s h => Json.noConfusion h) rfl (by simp)

/-- Reply text of the top-level handler of `Agent.run` for an
exception escaping `Agent.__run`. -/
def errorReplyText : PyErr → String
  | PyErr.jsonDecodeError => "Please try again"
  | _ => "Something went wrong, please be patient until developer fixes it"

/-- Claim C1 as stated is false on the code: when parsing succeeds with
a filter object and the recipe source then fails, the request produces
two user-facing replies, with the status reply preceding the error
reply. -/
theorem run_failure_two_replies_counterexample :
    Agent.run (fun _ => Except.ok (Json.obj []))
        (fun _ _ _ _ _ _ => Except.error (PyErr.exception "boom")) (fun _ => "")
      = ["Preparing recipes to match your taste",
         "Something went wrong, please be patient until developer fixes it"]
    ∧ (Agent.run (fun _ => Except.ok (Json.obj []))
        (fun _ _ _ _ _ _ => Except.error (PyErr.exception "boom"))
        (fun _ => "")).length ≠ 1 :=
  ⟨rfl, by decide⟩

/-- Claim C1 amended: for every failing request the top-level handler
appends exactly one error reply after the replies already emitted
before the failure, and never stays silent; replies emitted before the
failure (such as the status reply before a fetch failure) remain. -/
theorem run_appends_single_error_reply (o : CompletionOracle)
    (provider : ProviderFn) (formatter : Recipe → String)
    (rs : List String) (e : PyErr)
    (h : Agent.runInner o provider formatter = (rs, some e)) :
    Agent.run o provider formatter = rs ++ [errorReplyText e] := by
  unfold Agent.run
  rw [h]
  cases e <;> rfl

/-- Witness for the amended C1 at an exhausted parse retry. -/
theorem run_appends_single_error_reply_witness :
    Agent.run (fun _ => Except.error PyErr.jsonDecodeError)
        (fun _ _ _ _ _ _ => Except.ok []) (fun _ => "")
      = [] ++ [errorReplyText PyErr.jsonDecodeError] :=
  run_appends_single_error_reply _ _ _ [] PyErr.jsonDecodeError rfl
